import Mathlib

/-!
Verification of the pyExplorer file-explorer controller
(`src/main/python/package/main_window.py` and `src/main/python/main.py`).

The program is widget wiring over Qt's `QFileSystemModel`.  We embed the
observable view state of the `MainWindow` (root indices of the two views,
tree-view selection, icon size, slider configuration, stylesheet, window
geometry and visibility, and which model each view is bound to) and
translate each event handler literally.  External collaborators
(`QFileSystemModel`, `QStandardPaths`, the slider) are modelled by small
executable structures reproducing the Qt semantics the code relies on:
a model index is a filesystem path (list of name components), `isDir`
consults the model's set of directory paths, `QModelIndex.parent` drops
the last component, and `QSlider.setValue` bounds the value to the
configured range as `QAbstractSlider` does.
-/

/-- A Qt model index, identifying a node of the filesystem hierarchy by
its path (list of name components from the root). -/
structure QModelIndex where
  path : List String
deriving DecidableEq

/-- `QModelIndex.parent`: the index of the enclosing directory
(drops the last path component). -/
def QModelIndex.parent (i : QModelIndex) : QModelIndex :=
  ⟨i.path.dropLast⟩

/-- The external `QFileSystemModel`: the filesystem content is
parameterised by `dirs`, the set of paths that are directories
(everything else is a file); `rootPath` is what `setRootPath` stored. -/
structure QFileSystemModel where
  dirs : List (List String)
  rootPath : List String
deriving DecidableEq

/-- `QFileSystemModel.isDir`: directory/file classification of an index. -/
def QFileSystemModel.isDir (m : QFileSystemModel) (i : QModelIndex) : Bool :=
  m.dirs.contains i.path

/-- `QFileSystemModel.index(path)`: the model index addressing `path`. -/
def QFileSystemModel.index (_m : QFileSystemModel) (p : List String) : QModelIndex :=
  ⟨p⟩

/-- `QFileSystemModel.setRootPath`. -/
def QFileSystemModel.setRootPath (m : QFileSystemModel) (p : List String) : QFileSystemModel :=
  { m with rootPath := p }

/-- `QDir.rootPath()`: the filesystem root, the empty path. -/
def QDir.rootPath : List String := []

/-- A `QSlider`: its configured range and current value. -/
structure QSlider where
  minimum : Int
  maximum : Int
  value : Int
deriving DecidableEq

/-- A freshly constructed `QSlider()` (Qt default range 0..99, value 0). -/
def QSlider.init : QSlider :=
  { minimum := 0, maximum := 99, value := 0 }

/-- `QAbstractSlider.setRange`. -/
def QSlider.setRange (s : QSlider) (lo hi : Int) : QSlider :=
  { s with minimum := lo, maximum := hi }

/-- `QAbstractSlider.setValue`: the value is forced into the legal range
`minimum <= value <= maximum`. -/
def QSlider.setValue (s : QSlider) (v : Int) : QSlider :=
  { s with value := max s.minimum (min s.maximum v) }

/-- The selection-behaviour flag used by the code. -/
inductive QItemSelectionFlag where
  | ClearAndSelect
deriving DecidableEq

/-- A `QItemSelectionModel`: the set of selected indices and the current
index. -/
structure QItemSelectionModel where
  selected : List QModelIndex
  current : Option QModelIndex
deriving DecidableEq

/-- `QItemSelectionModel.setCurrentIndex(index, ClearAndSelect)`: clears
the complete selection, selects `index`, and makes it current. -/
def QItemSelectionModel.setCurrentIndex (_sm : QItemSelectionModel)
    (index : QModelIndex) (flag : QItemSelectionFlag) : QItemSelectionModel :=
  match flag with
  | .ClearAndSelect => { selected := [index], current := some index }

/-- The list view's rendering mode. -/
inductive QListViewMode where
  | ListMode
  | IconMode
deriving DecidableEq

/-- The observable state of the `MainWindow` and its widgets. -/
structure MainWindowState where
  styleSheet : String
  window_size : Int × Int
  window_visible : Bool
  sld_iconSize : QSlider
  list_view_viewMode : QListViewMode
  list_view_uniformItemSizes : Bool
  list_view_iconSize : Int × Int
  list_view_root : QModelIndex
  tree_view_root : QModelIndex
  tree_view_sortingEnabled : Bool
  tree_view_alternatingRowColors : Bool
  tree_view_selectionModel : QItemSelectionModel
  tree_view_model : QFileSystemModel
  list_view_model : QFileSystemModel
deriving DecidableEq

/-- `MainWindow.create_widgets`: freshly constructed widgets with Qt
defaults; the window starts hidden and unstyled. -/
def create_widgets : MainWindowState :=
  { styleSheet := ""
    window_size := (0, 0)
    window_visible := false
    sld_iconSize := QSlider.init
    list_view_viewMode := .ListMode
    list_view_uniformItemSizes := false
    list_view_iconSize := (0, 0)
    list_view_root := ⟨[]⟩
    tree_view_root := ⟨[]⟩
    tree_view_sortingEnabled := false
    tree_view_alternatingRowColors := false
    tree_view_selectionModel := { selected := [], current := none }
    tree_view_model := { dirs := [], rootPath := [] }
    list_view_model := { dirs := [], rootPath := [] } }

/-- `MainWindow.modify_widgets`: reads the `style.css` resource and
applies its full text as the window stylesheet, then configures the list
view (icon mode, uniform sizes, 48x48 icons), the slider (range 48..256,
value 48) and the tree view.  The resource read is the `cssRead`
argument: `none` models `open` raising (a missing or unreadable
resource), and the code has no handler for that, so the whole
initialisation fails, modelled by the `none` result. -/
def modify_widgets (cssRead : Option String) (s : MainWindowState) :
    Option MainWindowState :=
  match cssRead with
  | none => none
  | some text => some
    { s with
      styleSheet := text
      list_view_viewMode := .IconMode
      list_view_uniformItemSizes := true
      list_view_iconSize := (48, 48)
      sld_iconSize := (s.sld_iconSize.setRange 48 256).setValue 48
      tree_view_sortingEnabled := true
      tree_view_alternatingRowColors := true }

/-- The `locations` list of `MainWindow.add_actions_to_toolbox`: one
toolbar action per entry, each connected to `change_location` with the
corresponding name. -/
def locations : List String :=
  ["home", "desktop", "documents", "movies", "pictures", "music"]

/-- Python `str.capitalize()`: first character uppercased, the rest
lowercased. -/
def pyCapitalize (s : String) : String :=
  match s.data with
  | [] => ""
  | c :: cs => String.mk (c.toUpper :: cs.map Char.toLower)

/-- `MainWindow.change_icon_size(value)`: sets the list view icon size
to `QSize(value, value)`. -/
def change_icon_size (s : MainWindowState) (value : Int) : MainWindowState :=
  { s with list_view_iconSize := (value, value) }

/-- `MainWindow.change_location(location)`: dispatches on the location
name by building the key `{location.capitalize()}Location` and asking
`QStandardPaths().standardLocations` (the external resolver
`standardLocations`) for the paths of that standard location; takes the
first returned path with an unguarded `path[0]` (an empty list raises
`IndexError`, modelled by the `none` result) and sets both views' root
index to `self.model.index(path)`. -/
def change_location (standardLocations : String → List (List String))
    (m : QFileSystemModel) (s : MainWindowState) (location : String) :
    Option MainWindowState :=
  match standardLocations (pyCapitalize location ++ "Location") with
  | [] => none
  | path :: _ => some
    { s with
      tree_view_root := m.index path
      list_view_root := m.index path }

/-- `MainWindow.create_file_model`: creates the shared
`QFileSystemModel` rooted at `QDir.rootPath()`, binds it to both views
and sets both views' root index to the model index of the root path.
The filesystem content `dirs` parameterises the external model. -/
def create_file_model (dirs : List (List String)) (s : MainWindowState) :
    MainWindowState :=
  let model := QFileSystemModel.setRootPath { dirs := dirs, rootPath := [] } QDir.rootPath
  { s with
    tree_view_model := model
    list_view_model := model
    list_view_root := model.index QDir.rootPath
    tree_view_root := model.index QDir.rootPath }

/-- `MainWindow.treeview_clicked(index)`: if the shared model classifies
`index` as a directory, the list view's root becomes `index`; otherwise
it becomes `index.parent()`. -/
def treeview_clicked (m : QFileSystemModel) (s : MainWindowState)
    (index : QModelIndex) : MainWindowState :=
  if m.isDir index then
    { s with list_view_root := index }
  else
    { s with list_view_root := index.parent }

/-- `MainWindow.listview_clicked(index)`: sets the tree view selection
model's current index to `index` with `ClearAndSelect`. -/
def listview_clicked (s : MainWindowState) (index : QModelIndex) :
    MainWindowState :=
  { s with
    tree_view_selectionModel :=
      s.tree_view_selectionModel.setCurrentIndex index .ClearAndSelect }

/-- `MainWindow.listview_double_clicked(index)`: sets the list view's
root index to `index` unconditionally (no directory check). -/
def listview_double_clicked (s : MainWindowState) (index : QModelIndex) :
    MainWindowState :=
  { s with list_view_root := index }

/-- `MainWindow.setup_ui`: the construction sequence.  Only
`modify_widgets` can fail (resource read); layouting and signal wiring
have no observable state beyond what the other steps set. -/
def setup_ui (cssRead : Option String) (dirs : List (List String)) :
    Option MainWindowState :=
  match modify_widgets cssRead create_widgets with
  | none => none
  | some s => some (create_file_model dirs s)

/-- Python `int()` applied to an exact rational: truncation toward zero. -/
def pyInt (x : ℚ) : Int :=
  if 0 ≤ x then ⌊x⌋ else ⌈x⌉

/-- `QWidget.resize(w, h)`. -/
def window_resize (s : MainWindowState) (p : Int × Int) : MainWindowState :=
  { s with window_size := p }

/-- `QWidget.show()`. -/
def window_show (s : MainWindowState) : MainWindowState :=
  { s with window_visible := true }

/-- `main.py`: constructs the `MainWindow` (running `setup_ui`), resizes
it to `(int(1920*0.5), int(1080*0.5))`, then shows it. -/
def main_startup (cssRead : Option String) (dirs : List (List String)) :
    Option MainWindowState :=
  match setup_ui cssRead dirs with
  | none => none
  | some w =>
    some (window_show (window_resize w (pyInt ((1920 : ℚ) * 0.5), pyInt ((1080 : ℚ) * 0.5))))

/-- C1: for every index `i` passed to `treeview_clicked`, if the model
classifies `i` as a directory the list view's root becomes `i`,
otherwise it becomes `i`'s parent; and whenever `i`'s parent is a
directory (as it always is in a filesystem hierarchy), the resulting
list view root is a directory. -/
theorem treeview_clicked_spec (m : QFileSystemModel) (s : MainWindowState)
    (i : QModelIndex) :
    (m.isDir i = true → (treeview_clicked m s i).list_view_root = i) ∧
    (m.isDir i = false → (treeview_clicked m s i).list_view_root = i.parent) ∧
    (m.isDir i.parent = true →
      m.isDir (treeview_clicked m s i).list_view_root = true) := by
  refine ⟨fun h => ?_, fun h => ?_, fun h => ?_⟩
  · simp [treeview_clicked, h]
  · simp [treeview_clicked, h]
  · by_cases hd : m.isDir i = true
    · simp [treeview_clicked, hd]
    · simp [treeview_clicked, hd, h]

/-- C1 witness: a concrete model where the root and `a` are directories
and `a/f.txt` is a file, exercising all three parts of
`treeview_clicked_spec`. -/
theorem treeview_clicked_spec_witness :
    (treeview_clicked (⟨[[], ["a"]], []⟩ : QFileSystemModel) create_widgets
        ⟨["a"]⟩).list_view_root = ⟨["a"]⟩ ∧
    (treeview_clicked (⟨[[], ["a"]], []⟩ : QFileSystemModel) create_widgets
        ⟨["a", "f.txt"]⟩).list_view_root = QModelIndex.parent ⟨["a", "f.txt"]⟩ ∧
    (QFileSystemModel.isDir ⟨[[], ["a"]], []⟩
      (treeview_clicked (⟨[[], ["a"]], []⟩ : QFileSystemModel) create_widgets
        ⟨["a", "f.txt"]⟩).list_view_root) = true :=
  ⟨(treeview_clicked_spec _ _ _).1 (by decide),
   (treeview_clicked_spec _ _ _).2.1 (by decide),
   (treeview_clicked_spec _ _ _).2.2 (by decide)⟩

/-- C2: `listview_double_clicked` sets the list view's root index to the
clicked index unconditionally; its definition performs no directory
check, so this holds whether the index denotes a file or a directory. -/
theorem listview_double_clicked_spec (s : MainWindowState) (i : QModelIndex) :
    (listview_double_clicked s i).list_view_root = i :=
  rfl

/-- C3: `listview_clicked` makes the clicked index the tree view's
current index and, by the `ClearAndSelect` behaviour, the selection
afterwards consists of exactly that index. -/
theorem listview_clicked_spec (s : MainWindowState) (i : QModelIndex) :
    (listview_clicked s i).tree_view_selectionModel.current = some i ∧
    (listview_clicked s i).tree_view_selectionModel.selected = [i] ∧
    ∀ j : QModelIndex,
      j ∈ (listview_clicked s i).tree_view_selectionModel.selected → j = i := by
  refine ⟨rfl, rfl, fun j hj => ?_⟩
  simp [listview_clicked, QItemSelectionModel.setCurrentIndex] at hj
  exact hj

/-- C3 part 3 has a hypothesis, so a witness instance: clicking
`["a"]` over fresh widgets leaves `["a"]` as the only selected index. -/
theorem listview_clicked_spec_witness :
    (⟨["a"]⟩ : QModelIndex) ∈
      (listview_clicked create_widgets ⟨["a"]⟩).tree_view_selectionModel.selected ∧
    (⟨["a"]⟩ : QModelIndex) = ⟨["a"]⟩ :=
  ⟨by decide, (listview_clicked_spec create_widgets ⟨["a"]⟩).2.2 ⟨["a"]⟩ (by decide)⟩

/-- C4: for every location in the shortcut list, when the
standard-locations resolver returns a nonempty path list for the
dispatch key `capitalize(location) ++ "Location"`, `change_location`
takes the first returned path and sets both views' root index to the
model index of that path. -/
theorem change_location_spec (standardLocations : String → List (List String))
    (m : QFileSystemModel) (s : MainWindowState) (loc : String)
    (_hloc : loc ∈ locations) (p : List String) (rest : List (List String))
    (hres : standardLocations (pyCapitalize loc ++ "Location") = p :: rest) :
    change_location standardLocations m s loc =
      some { s with tree_view_root := m.index p, list_view_root := m.index p } := by
  simp [change_location, hres]

/-- C4 witness: clicking the `home` shortcut with a resolver mapping
`HomeLocation` to `/home/user` roots both views at `/home/user`. -/
theorem change_location_spec_witness :
    "home" ∈ locations ∧
    change_location
        (fun k => if k = "HomeLocation" then [["home", "user"]] else [])
        (⟨[[]], []⟩ : QFileSystemModel) create_widgets "home" =
      some { create_widgets with
              tree_view_root := ⟨["home", "user"]⟩
              list_view_root := ⟨["home", "user"]⟩ } :=
  ⟨by decide,
   change_location_spec _ _ _ _ (by decide) ["home", "user"] [] (by decide)⟩

/-- C5: when the standard-locations resolver returns the empty list,
`change_location` accesses its first element unguarded (`path[0]`), so
the handler fails (the `IndexError` propagates, modelled by `none`)
instead of skipping navigation and returning an unchanged state. -/
theorem change_location_empty_spec
    (standardLocations : String → List (List String))
    (m : QFileSystemModel) (s : MainWindowState) (loc : String)
    (hres : standardLocations (pyCapitalize loc ++ "Location") = []) :
    change_location standardLocations m s loc = none := by
  simp [change_location, hres]

/-- C5 witness: a resolver that returns no path for any location makes
the `home` click fail. -/
theorem change_location_empty_spec_witness :
    (fun _ : String => ([] : List (List String)))
        (pyCapitalize "home" ++ "Location") = [] ∧
    change_location (fun _ => []) (⟨[[]], []⟩ : QFileSystemModel)
        create_widgets "home" = none :=
  ⟨rfl, change_location_empty_spec (fun _ => []) _ create_widgets "home" rfl⟩

/-- C6: `change_icon_size v` sets the list view icon size to exactly
`v` by `v`, and `modify_widgets` configures the slider's range to
`[48, 256]`, so any value set on the slider is forced into that
interval. -/
theorem change_icon_size_spec (s₀ : MainWindowState) (t : String)
    (s : MainWindowState) (v : Int) :
    (change_icon_size s v).list_view_iconSize = (v, v) ∧
    ∃ s₁, modify_widgets (some t) s₀ = some s₁ ∧
      s₁.sld_iconSize.minimum = 48 ∧ s₁.sld_iconSize.maximum = 256 ∧
      ∀ u : Int, 48 ≤ (s₁.sld_iconSize.setValue u).value ∧
        (s₁.sld_iconSize.setValue u).value ≤ 256 := by
  refine ⟨rfl, _, rfl, rfl, rfl, fun u => ?_⟩
  simp only [QSlider.setValue, QSlider.setRange]
  omega

/-- C7: a failed stylesheet-resource read (`none`) makes
`modify_widgets` — and with it the whole startup — fail with no recovery
path, so no window is ever shown; a successful read applies the full
resource text as the window's stylesheet. -/
theorem modify_widgets_style_spec :
    (∀ s : MainWindowState, modify_widgets none s = none) ∧
    (∀ dirs : List (List String), main_startup none dirs = none) ∧
    (∀ (t : String) (s : MainWindowState),
      ∃ s₁, modify_widgets (some t) s = some s₁ ∧ s₁.styleSheet = t) :=
  ⟨fun _ => rfl, fun _ => rfl, fun _ _ => ⟨_, rfl, rfl⟩⟩

/-- C8: startup resizes the window to `(int(1920*0.5), int(1080*0.5))`
= `(960, 540)` and only then shows it: the state handed to `show` has
size 960 by 540 and is not yet visible, and the shown window keeps that
size. -/
theorem main_startup_geometry_spec (t : String) (dirs : List (List String)) :
    pyInt ((1920 : ℚ) * 0.5) = 960 ∧ pyInt ((1080 : ℚ) * 0.5) = 540 ∧
    ∃ w, setup_ui (some t) dirs = some w ∧
      main_startup (some t) dirs = some (window_show (window_resize w (960, 540))) ∧
      (window_resize w (960, 540)).window_size = (960, 540) ∧
      (window_resize w (960, 540)).window_visible = false ∧
      (window_show (window_resize w (960, 540))).window_size = (960, 540) ∧
      (window_show (window_resize w (960, 540))).window_visible = true := by
  have h1 : pyInt ((1920 : ℚ) * 0.5) = 960 := by norm_num [pyInt]
  have h2 : pyInt ((1080 : ℚ) * 0.5) = 540 := by norm_num [pyInt]
  refine ⟨h1, h2, _, rfl, ?_, rfl, rfl, rfl, rfl⟩
  simp [main_startup, setup_ui, modify_widgets, h1, h2]

/-- C9: each event handler is idempotent over an unchanged shared model:
running it twice with the same payload yields the same view state as
running it once (for `change_location`, composition through the fallible
result). -/
theorem handlers_idempotent (standardLocations : String → List (List String))
    (m : QFileSystemModel) (s : MainWindowState) (i : QModelIndex) (v : Int)
    (loc : String) :
    treeview_clicked m (treeview_clicked m s i) i = treeview_clicked m s i ∧
    listview_clicked (listview_clicked s i) i = listview_clicked s i ∧
    listview_double_clicked (listview_double_clicked s i) i =
      listview_double_clicked s i ∧
    change_icon_size (change_icon_size s v) v = change_icon_size s v ∧
    (change_location standardLocations m s loc).bind
        (fun s₁ => change_location standardLocations m s₁ loc) =
      change_location standardLocations m s loc := by
  refine ⟨?_, rfl, rfl, rfl, ?_⟩
  · by_cases h : m.isDir i = true <;> simp [treeview_clicked, h]
  · cases hres : standardLocations (pyCapitalize loc ++ "Location") with
    | nil => simp [change_location, hres]
    | cons p rest => simp [change_location, hres]

/-- C10: `treeview_clicked` mutates only the list view's root index:
the tree view's root, the tree view's selection, the icon size, the
slider, and the model bindings of both views are unchanged. -/
theorem treeview_clicked_frame (m : QFileSystemModel) (s : MainWindowState)
    (i : QModelIndex) :
    (treeview_clicked m s i).tree_view_root = s.tree_view_root ∧
    (treeview_clicked m s i).tree_view_selectionModel = s.tree_view_selectionModel ∧
    (treeview_clicked m s i).list_view_iconSize = s.list_view_iconSize ∧
    (treeview_clicked m s i).sld_iconSize = s.sld_iconSize ∧
    (treeview_clicked m s i).tree_view_model = s.tree_view_model ∧
    (treeview_clicked m s i).list_view_model = s.list_view_model := by
  by_cases h : m.isDir i = true <;> simp [treeview_clicked, h]
